import Mathlib

/-!
Verification development for the photos-metadata-restore pipeline of the
useful-tools repository.  The pipeline's pure decision logic is embedded
shallowly: Python dict-shaped records become Lean structures or association
lists, machine floats become rationals, `datetime.datetime` becomes an
explicit calendar record, and code that can raise becomes `Except PyErr`.
External effects (the exiftool subprocess, the filesystem) enter the model
as explicit inputs or parameters; the embedded functions are the pipeline's
own decisions about those inputs, translated statement by statement from
the Python sources.
-/

instance exceptDecEq {ε α : Type} [DecidableEq ε] [DecidableEq α] :
    DecidableEq (Except ε α) := fun a b =>
  match a, b with
  | .ok x, .ok y =>
    if h : x = y then .isTrue (by rw [h]) else .isFalse (by simp [h])
  | .error x, .error y =>
    if h : x = y then .isTrue (by rw [h]) else .isFalse (by simp [h])
  | .ok _, .error _ => .isFalse (by simp)
  | .error _, .ok _ => .isFalse (by simp)

/-- Python exceptions that the embedded code can raise. -/
inductive PyErr where
  | keyError (key : String)
  | attributeError
  | valueError
  | typeError
deriving DecidableEq, Repr

/-- A calendar timestamp, mirroring a naive `datetime.datetime` value at
second precision (the precision the pipeline reads and writes). -/
structure DateTimeRec where
  year : Nat
  month : Nat
  day : Nat
  hour : Nat
  minute : Nat
  second : Nat
deriving DecidableEq, Repr

def isLeapYear (y : Nat) : Bool :=
  y % 4 == 0 && (y % 100 != 0 || y % 400 == 0)

def daysInMonth (y m : Nat) : Nat :=
  if m = 2 then (if isLeapYear y then 29 else 28)
  else if m = 4 ∨ m = 6 ∨ m = 9 ∨ m = 11 then 30
  else 31

def validDate (y m d : Nat) : Bool :=
  decide (1 ≤ y) && decide (y ≤ 9999) && decide (1 ≤ m) && decide (m ≤ 12) &&
    decide (1 ≤ d) && decide (d ≤ daysInMonth y m)

def validTime (h mi s : Nat) : Bool :=
  decide (h ≤ 23) && decide (mi ≤ 59) && decide (s ≤ 59)

/-- The `datetime.datetime` constructor: validates the fields exactly as
Python does (returning `none` where Python raises `ValueError`). -/
def mkDateTime (y mo d h mi s : Nat) : Option DateTimeRec :=
  if validDate y mo d && validTime h mi s then some ⟨y, mo, d, h, mi, s⟩ else none

/-- Days since 1970-01-01 of a civil date (Hinnant's civil-from-days
algorithm); used to give exact meaning to Python datetime subtraction. -/
def daysFromCivil (y m d : Nat) : Int :=
  let y2 := y - (if m ≤ 2 then 1 else 0)
  let era := y2 / 400
  let yoe := y2 % 400
  let doy := (153 * (if 2 < m then m - 3 else m + 9) + 2) / 5 + d - 1
  let doe := yoe * 365 + yoe / 4 - yoe / 100 + doy
  (era * 146097 + doe : Int) - 719468

/-- Seconds since the epoch of a timestamp; `(a - b).total_seconds()` in
Python equals `toSeconds a - toSeconds b` for naive second-precision
datetimes. -/
def toSeconds (t : DateTimeRec) : Int :=
  daysFromCivil t.year t.month t.day * 86400 +
    t.hour * 3600 + t.minute * 60 + t.second

/-- Civil date from days since the epoch (inverse of `daysFromCivil` on
valid dates of year at least 1). -/
def civilFromDays (z : Int) : Nat × Nat × Nat :=
  let z2 := (z + 719468).toNat
  let era := z2 / 146097
  let doe := z2 % 146097
  let yoe := (doe - doe / 1460 + doe / 36524 - doe / 146096) / 365
  let y := yoe + era * 400
  let doy := doe - (365 * yoe + yoe / 4 - yoe / 100)
  let mp := (5 * doy + 2) / 153
  let d := doy - (153 * mp + 2) / 5 + 1
  let m := if mp < 10 then mp + 3 else mp - 9
  (y + (if m ≤ 2 then 1 else 0), m, d)

def fromTotalSeconds (s : Int) : DateTimeRec :=
  let days := s.fdiv 86400
  let rem := (s - days * 86400).toNat
  let c := civilFromDays days
  ⟨c.1, c.2.1, c.2.2, rem / 3600, rem % 3600 / 60, rem % 60⟩

/-- Python `dt + timedelta(seconds=n)`. -/
def addSecondsDT (t : DateTimeRec) (n : Int) : DateTimeRec :=
  fromTotalSeconds (toSeconds t + n)

def digitVal (c : Char) : Nat := c.toNat - 48

def allDigits (cs : List Char) : Bool := !cs.isEmpty && cs.all Char.isDigit

def digitsToNat (cs : List Char) : Nat :=
  cs.foldl (fun a c => a * 10 + digitVal c) 0

/-- Greedily read one to `maxN` digits, as `strptime` numeric directives do. -/
def takeDigits (maxN : Nat) (cs : List Char) : Option (Nat × List Char) :=
  let ds := (cs.take maxN).takeWhile Char.isDigit
  if ds.isEmpty then none else some (digitsToNat ds, cs.drop ds.length)

def expectChar (c : Char) : List Char → Option (List Char)
  | x :: rest => if x = c then some rest else none
  | [] => none

/-- Model of `datetime.datetime.strptime` for the two fixed formats the
pipeline uses, which differ only in the date separator:
`%Y<sep>%m<sep>%d %H:%M:%S`.  `none` models a raised `ValueError`. -/
def strptimeWith (sep : Char) (cs : List Char) : Option DateTimeRec := do
  let (y, r1) ← takeDigits 4 cs
  let r2 ← expectChar sep r1
  let (mo, r3) ← takeDigits 2 r2
  let r4 ← expectChar sep r3
  let (d, r5) ← takeDigits 2 r4
  let r6 ← expectChar ' ' r5
  let (h, r7) ← takeDigits 2 r6
  let r8 ← expectChar ':' r7
  let (mi, r9) ← takeDigits 2 r8
  let r10 ← expectChar ':' r9
  let (s, r11) ← takeDigits 2 r10
  if r11.isEmpty then mkDateTime y mo d h mi s else none

/-- `strptime` with format `%Y:%m:%d %H:%M:%S` (the EXIF datetime format). -/
def strptimeExif (cs : List Char) : Option DateTimeRec := strptimeWith ':' cs

/-- `strptime` with format `%Y/%m/%d %H:%M:%S` (Google Photos timestamps). -/
def strptimeSlash (cs : List Char) : Option DateTimeRec := strptimeWith '/' cs

def parseIsoDate (cs : List Char) : Option (Nat × Nat × Nat) :=
  match cs with
  | [a, b, c, d, '-', e, f, '-', g, h] =>
    if allDigits [a, b, c, d] && allDigits [e, f] && allDigits [g, h] then
      some (digitsToNat [a, b, c, d], digitsToNat [e, f], digitsToNat [g, h])
    else none
  | _ => none

def parseIsoTime (cs : List Char) : Option (Nat × Nat × Nat) :=
  match cs with
  | [] => some (0, 0, 0)
  | [' ', a, b, ':', c, d] =>
    if allDigits [a, b] && allDigits [c, d] then
      some (digitsToNat [a, b], digitsToNat [c, d], 0)
    else none
  | [' ', a, b, ':', c, d, ':', e, f] =>
    if allDigits [a, b] && allDigits [c, d] && allDigits [e, f] then
      some (digitsToNat [a, b], digitsToNat [c, d], digitsToNat [e, f])
    else none
  | _ => none

/-- Model of the Python stdlib `datetime.datetime.fromisoformat`:
accepts `YYYY-MM-DD`, optionally followed by ` HH:MM` or ` HH:MM:SS`
(the shapes the pipeline produces); `none` models a raised `ValueError`. -/
def fromIsoModel (s : String) : Option DateTimeRec := do
  let cs := s.data
  let (y, mo, d) ← parseIsoDate (cs.take 10)
  let (h, mi, se) ← parseIsoTime (cs.drop 10)
  mkDateTime y mo d h mi se

/-- Python `s.replace("T", " ")` for a one-character pattern. -/
def replaceTwithSpace (s : String) : String :=
  String.mk (s.data.map fun c => if c = 'T' then ' ' else c)

/-- Python `s.split("+")[0]`: the prefix before the first plus sign. -/
def takeBeforePlus (cs : List Char) : List Char :=
  cs.takeWhile (fun c => c ≠ '+')

/-- Python substring test `needle in hay`. -/
def hasSub (hay needle : List Char) : Bool :=
  match hay with
  | [] => needle.isEmpty
  | _ :: t => needle.isPrefixOf hay || hasSub t needle

/-- Python `s.replace("UTC", "")`. -/
def removeUTC : List Char → List Char
  | 'U' :: 'T' :: 'C' :: rest => removeUTC rest
  | c :: rest => c :: removeUTC rest
  | [] => []

/-- Python `s.strip()`. -/
def stripChars (cs : List Char) : List Char :=
  ((cs.dropWhile Char.isWhitespace).reverse.dropWhile Char.isWhitespace).reverse

namespace ExifUtils

/-- EXIF metadata as returned by the external tool: a tag-to-value record
(`utils/exif_utils.py` reads it as a Python dict; values are modelled after
the `str()` conversion the code applies). -/
abbrev ExifData := List (String × String)

/-- Python `exif_data[tag]` read through a containment check: the first
binding of the tag, if any. -/
def lookupTag (d : ExifData) (k : String) : Option String :=
  (d.find? (fun kv => kv.1 == k)).map (·.2)

/-- The fixed tag priority list of `get_exif_datetime`
(`utils/exif_utils.py`, lines 72-81). -/
def datetimeFields : List String :=
  ["EXIF:DateTime",
   "EXIF:DateTimeOriginal",
   "EXIF:DateTimeDigitized",
   "EXIF:CreateDate",
   "EXIF:ModifyDate",
   "File:FileModifyDate",
   "File:FileAccessDate",
   "File:FileInodeChangeDate"]

/-- What happens to one candidate tag value inside the scan loop of
`get_exif_datetime`: it parses, it raises, or it matches neither format
branch and the loop falls through to the next tag. -/
inductive ParseOutcome where
  | unrecognized
  | parsed (dt : DateTimeRec)
  | raised
deriving DecidableEq, Repr

/-- The body of the scan loop of `get_exif_datetime` for one non-empty
value (`utils/exif_utils.py`, lines 85-94): the ISO branch fires when the
string contains a `T` (truncating at a plus sign and replacing `T` by a
space); the EXIF branch fires when it contains a colon and has length at
least 19 (parsing the first 19 characters); otherwise the loop continues. -/
def parseDatetimeValue (v : String) : ParseOutcome :=
  let cs := v.data
  if cs.contains 'T' then
    let cs2 := if cs.contains '+' then takeBeforePlus cs else cs
    match fromIsoModel (replaceTwithSpace (String.mk cs2)) with
    | some dt => .parsed dt
    | none => .raised
  else if cs.contains ':' && decide (19 ≤ cs.length) then
    match strptimeExif (cs.take 19) with
    | some dt => .parsed dt
    | none => .raised
  else .unrecognized

/-- The scan loop of `get_exif_datetime` over a list of tag names. -/
def exifDatetimeLoop (d : ExifData) : List String → Except PyErr (Option DateTimeRec)
  | [] => .ok none
  | f :: fs =>
    match lookupTag d f with
    | some v =>
      if v = "" then exifDatetimeLoop d fs
      else
        match parseDatetimeValue v with
        | .parsed dt => .ok (some dt)
        | .raised => .error .valueError
        | .unrecognized => exifDatetimeLoop d fs
    | none => exifDatetimeLoop d fs

/-- `get_exif_datetime` (`utils/exif_utils.py`, lines 61-96). -/
def get_exif_datetime (d : ExifData) : Except PyErr (Option DateTimeRec) :=
  exifDatetimeLoop d datetimeFields

/-- `get_exif_data` (`utils/exif_utils.py`, lines 44-58): the external tool
returns a list of metadata objects; the first is kept, and an empty answer
becomes `none`. -/
def get_exif_data (toolOutput : List ExifData) : Option ExifData :=
  toolOutput.head?

/-- Specification-side description of one tag's usability in the scan of
`get_exif_datetime`: the tag's value, when the tag is present, the value
is non-empty, and the value is in one of the two recognized shapes. -/
def usableValue (d : ExifData) (f : String) : Option String :=
  match lookupTag d f with
  | some v =>
    if v = "" then none
    else
      match parseDatetimeValue v with
      | .unrecognized => none
      | _ => some v
  | none => none

/-- Specification-side description of the scanned result: the value of
the first usable tag in the priority list. -/
def firstUsableValue (d : ExifData) (fs : List String) : Option String :=
  fs.findSome? (usableValue d)

/-- The result of parsing one usable value: the parsed timestamp, or the
propagated `ValueError` (an unrecognized value is never selected). -/
def applyDatetimeParse (v : String) : Except PyErr (Option DateTimeRec) :=
  match parseDatetimeValue v with
  | .parsed dt => .ok (some dt)
  | .raised => .error .valueError
  | .unrecognized => .ok none

/-- `GPSData` (`utils/exif_utils.py`, lines 17-22), floats as rationals. -/
structure GPSData where
  latitude : ℚ
  longitude : ℚ
  altitude : Option ℚ := none
deriving DecidableEq, Repr

end ExifUtils

namespace CopyFiles

/-- One candidate media file of the ingestion stage: its source path, its
lower-cased extension, and its byte content.  The md5 digest is kept
abstract: the embedding is parameterized by an arbitrary hash function
`hashFn`, standing for `calculate_file_hash` (which is a pure function of
the file's bytes). -/
structure FileInput where
  path : String
  ext : String
  content : List Nat
deriving DecidableEq, Repr

/-- One entry of `processed_hashes` / `pair_data` in `1_copy_files.py`.
In the Python code the `pair_info` dict (lines 85-90) shares its `sources`
list with the `processed_hashes` entry, so the final `pair.json` entry for
a hash carries every source appended later; the model therefore keeps a
single entry per hash. -/
structure Entry where
  sources : List String
  destination : String
  filename : String
  hash : String
deriving DecidableEq, Repr

/-- The shared mutable state of `copy_images_with_hash`: the hash table
(in insertion order, which is also the order of `pair_data`) and the list
of copy operations performed (`shutil.copy2` calls), recorded as
(hash, destination) pairs. -/
structure IngestState where
  table : List Entry
  copies : List (String × String)
deriving DecidableEq, Repr

def hashIs (h : String) (e : Entry) : Bool := e.hash == h

/-- `file_hash in processed_hashes`. -/
def hasHash (h : String) (t : List Entry) : Bool := t.any (hashIs h)

/-- `processed_hashes[file_hash]["sources"].append(str(source_path))`. -/
def addSource (h p : String) : List Entry → List Entry
  | [] => []
  | e :: es =>
    if hashIs h e then { e with sources := e.sources ++ [p] } :: es
    else e :: addSource h p es

/-- The new entry created for a previously unseen hash, together with the
copied destination `output_dir/<hash><ext>` (lines 69-90). -/
def newEntry (outputDir h ext p : String) : Entry :=
  { sources := [p]
    destination := outputDir ++ "/" ++ h ++ ext
    filename := h ++ ext
    hash := h }

/-- `process_single_file` (lines 52-92), as one atomic step of the
lock-linearized execution: check-then-insert and the sources append happen
under the mutex, so the thread-pool run is equivalent to this sequential
step applied in some order of the submitted files. -/
def process_single_file (hashFn : List Nat → String) (outputDir : String)
    (st : IngestState) (f : FileInput) : IngestState :=
  let h := hashFn f.content
  if hasHash h st.table then
    { st with table := addSource h f.path st.table }
  else
    let e := newEntry outputDir h f.ext f.path
    { table := st.table ++ [e], copies := st.copies ++ [(h, e.destination)] }

/-- `copy_images_with_hash` (lines 95-145): fold the per-file step over the
candidate files; the resulting table is exactly the `pair_data` written to
`pair.json`. -/
def copy_images_with_hash (hashFn : List Nat → String) (outputDir : String)
    (files : List FileInput) : IngestState :=
  files.foldl (process_single_file hashFn outputDir) ⟨[], []⟩

/-- All source paths recorded for hash `h`, over all entries with that
hash (there is at most one such entry in reachable states). -/
def sourcesOf (t : List Entry) (h : String) : List String :=
  ((t.filter (hashIs h)).map Entry.sources).flatten

/-- Number of table entries carrying hash `h`. -/
def countH (t : List Entry) (h : String) : Nat := t.countP (hashIs h)

/-- The state invariant of the ingestion fold after the files `processed`
have been handled: each seen hash owns exactly one table entry, that
entry's sources are exactly the paths of the processed files hashing to
it (in processing order), and one copy was performed per entry. -/
def Inv (hashFn : List Nat → String) (processed : List FileInput)
    (st : IngestState) : Prop :=
  (∀ h, countH st.table h =
      (if processed.any (fun f => hashFn f.content == h) then 1 else 0)) ∧
  (∀ h, sourcesOf st.table h =
      (processed.filter (fun f => hashFn f.content == h)).map FileInput.path) ∧
  st.copies.map Prod.fst = st.table.map Entry.hash

end CopyFiles

/-- A Python value stored in a `pair.json` record: a string or a list of
strings (the two shapes `1_copy_files.py` writes). -/
inductive PyVal where
  | str (s : String)
  | strList (l : List String)
deriving DecidableEq, Repr

/-- A JSON-decoded Python dict with string keys, in insertion order. -/
abbrev PyDict := List (String × PyVal)

/-- Python `d[k]`: raises `KeyError` when the key is absent. -/
def getItem (d : PyDict) (k : String) : Except PyErr PyVal :=
  match d.find? (fun kv => kv.1 == k) with
  | some kv => .ok kv.2
  | none => .error (.keyError k)

/-- Python `d[k]` where the caller goes on to use the value as a string
(`Path(...)`, `os.path.basename(...)`): a non-string value raises. -/
def getStrItem (d : PyDict) (k : String) : Except PyErr String := do
  match ← getItem d k with
  | .str s => pure s
  | .strList _ => .error .typeError

def keysOf (d : PyDict) : List String := d.map Prod.fst

namespace CopyFiles

/-- The `pair_info` dict built in `process_single_file` (lines 85-90), in
the insertion order of its keys. -/
def entryToDict (e : Entry) : PyDict :=
  [("sources", PyVal.strList e.sources),
   ("destination", PyVal.str e.destination),
   ("filename", PyVal.str e.filename),
   ("hash", PyVal.str e.hash)]

end CopyFiles

namespace FilterMissing

/-- The metadata record built by `process_single_file` of
`2_filter_missing_metadata.py` (lines 109-138) for one stored file. -/
structure Stage2Rec where
  file_name : String
  exif_datetime : Option DateTimeRec
  file_creation_time : DateTimeRec
  gps_data : Option ExifUtils.GPSData
deriving DecidableEq, Repr

/-- One file processed, not fatal: the record was produced. -/
inductive FileOutcome where
  | processed (r : Stage2Rec)
  | fatal (err : PyErr)
deriving DecidableEq, Repr

/-- `process_single_file` (`2_filter_missing_metadata.py`, lines 109-138).
The external pieces enter as inputs: `exifData` is the result of
`get_exif_data` on the chosen source file, `fct` is the filesystem
creation time, and `gpsOf` stands for `get_gps_data` (a pure function of
the tag dict, applied only when EXIF data is present).  An exception
raised by `get_exif_datetime` propagates as `fatal`. -/
def process_single_file (gpsOf : ExifUtils.ExifData → Option ExifUtils.GPSData)
    (exifData : Option ExifUtils.ExifData) (fct : DateTimeRec)
    (fileName : String) : FileOutcome :=
  let dtRes : Except PyErr (Option DateTimeRec) :=
    match exifData with
    | some d => ExifUtils.get_exif_datetime d
    | none => .ok none
  match dtRes with
  | .error e => .fatal e
  | .ok dt =>
    let gps : Option ExifUtils.GPSData :=
      match exifData with
      | some d => gpsOf d
      | none => none
    .processed ⟨fileName, dt, fct, gps⟩

/-- The core loop of `load_pair_mapping` (`2_filter_missing_metadata.py`,
lines 148-159): build the destination-to-source mapping, reading
`item['destination']` and then `item['source']` from every record; a
missing key raises an uncaught `KeyError`. -/
def load_pair_mapping (pairData : List PyDict) : Except PyErr (List (String × String)) :=
  pairData.foldlM
    (fun mapping item => do
      let destination ← getStrItem item "destination"
      let source ← getStrItem item "source"
      pure (mapping ++ [(destination, source)]))
    []

end FilterMissing

section Paths

/-- Last path component (`os.path.basename` / `Path(...).name`). -/
def pyBasename (s : String) : String :=
  (s.splitOn "/").getLastD ""

/-- `Path(...).parent` for relative and absolute slash-separated paths. -/
def pyParent (s : String) : String :=
  let parts := s.splitOn "/"
  if parts.length ≤ 1 then "." else String.intercalate "/" parts.dropLast

/-- `Path(...).stem`: the final component without its last suffix. -/
def pyStem (s : String) : String :=
  let name := pyBasename s
  let parts := name.splitOn "."
  if parts.length ≤ 1 then name else String.intercalate "." parts.dropLast

/-- `Path(...).suffix`: the last dot-suffix of the final component. -/
def pySuffix (s : String) : String :=
  let name := pyBasename s
  let parts := name.splitOn "."
  if parts.length ≤ 1 then "" else "." ++ parts.getLastD ""

end Paths

namespace FindMetadata

/-- One directory entry as seen by `Path.iterdir`. -/
structure DirEnt where
  name : String
  isFile : Bool
deriving DecidableEq, Repr

/-- The filesystem as the stage-3 search reads it: path existence, the
directory test, and directory listings. -/
structure FsModel where
  pathExists : String → Bool
  isDir : String → Bool
  dirList : String → List DirEnt

/-- One discovered candidate metadata file (the dict of
`3_find_metadata_file.py`, lines 65-71 and 88-94; its `found` and
`file_exists` fields are the constant `True`). -/
structure MetaFileEntry where
  path : String
  filename : String
  type : String
deriving DecidableEq, Repr

/-- The fixed same-directory naming patterns of
`find_metadata_files_for_image` (lines 36-59). -/
def metadataPatterns (sourceDir stem : String) : List String :=
  [stem ++ ".json",
   stem ++ ".metadata.json",
   stem ++ ".supplemental-metadata.json",
   stem ++ ".metadata",
   stem ++ ".exif",
   stem ++ ".jpg.json",
   stem ++ ".jpeg.json",
   stem ++ ".png.json",
   pyBasename (pyParent sourceDir) ++ ".json",
   pyBasename (pyParent sourceDir) ++ ".metadata.json",
   "metadata.json",
   "photo-metadata.json",
   "image-metadata.json",
   "exif-data.json",
   "photo-info.json"]

/-- The candidate metadata directories (lines 74-81). -/
def metadataDirs (sourceDir : String) : List String :=
  [sourceDir ++ "/metadata",
   sourceDir ++ "/photo-metadata",
   sourceDir ++ "/image-metadata",
   pyParent sourceDir ++ "/metadata",
   pyParent sourceDir ++ "/photo-metadata",
   pyParent sourceDir ++ "/image-metadata"]

/-- `find_metadata_files_for_image` (`3_find_metadata_file.py`,
lines 27-96): same-directory patterns first, then matching files inside
the candidate metadata directories. -/
def find_metadata_files_for_image (fs : FsModel) (sourcePath : String) :
    List MetaFileEntry :=
  let sourceDir := pyParent sourcePath
  let stem := pyStem sourcePath
  let fromPatterns :=
    (metadataPatterns sourceDir stem).filterMap fun pat =>
      let p := sourceDir ++ "/" ++ pat
      if fs.pathExists p then some ⟨p, pat, "file"⟩ else none
  let fromDirs :=
    ((metadataDirs sourceDir).map fun d =>
      if fs.pathExists d && fs.isDir d then
        (fs.dirList d).filterMap fun f =>
          if f.isFile && (hasSub f.name.data stem.data || pySuffix f.name == ".json")
          then some ⟨d ++ "/" ++ f.name, f.name, "directory"⟩ else none
      else []).flatten
  fromPatterns ++ fromDirs

/-- The per-source record written into `metadata_location.json`
(lines 179-196), without the redundant `all_metadata_files` list. -/
structure LocRec where
  original_source : String
  metadata_file : Option String
  metadata_type : Option String
  found : Bool
  file_exists : Bool
deriving DecidableEq, Repr

/-- The outcome of one iteration of the stage-3 main loop: either a
location record stored under the pair's filename, or an exception caught
by the per-pair handler and logged (lines 200-202). -/
inductive Stage3Outcome where
  | entry (filename : String) (loc : LocRec)
  | errorLogged
deriving DecidableEq, Repr

/-- The body of the stage-3 main loop for one pair (lines 168-198):
read `pair["source"]` and `pair["filename"]`, search for sidecar files,
and record found or not-found; any exception is caught and logged. -/
def stage3ProcessPair (fs : FsModel) (pair : PyDict) : Stage3Outcome :=
  match getStrItem pair "source", getStrItem pair "filename" with
  | .ok source, .ok filename =>
    match find_metadata_files_for_image fs source with
    | [] => .entry filename ⟨source, none, none, false, false⟩
    | primary :: _ =>
      .entry filename ⟨source, some primary.path, some primary.type, true, true⟩
  | _, _ => .errorLogged

/-- The stage-3 main loop over all pairs: every pair produces an outcome,
independent of the outcomes of the others. -/
def stage3Main (fs : FsModel) (pairs : List PyDict) : List Stage3Outcome :=
  pairs.map (stage3ProcessPair fs)

end FindMetadata

namespace Restore4

open ExifUtils

/-- The `geoData` dict of a sidecar file, read with `.get` defaults. -/
structure GeoDict where
  latitude : Option ℚ
  longitude : Option ℚ
  altitude : Option ℚ
deriving DecidableEq, Repr

/-- A `photoTakenTime` / `creationTime` dict: only the `formatted` field
is read. -/
structure TimeDict where
  formatted : Option String
deriving DecidableEq, Repr

/-- A decoded sidecar (`supplemental-metadata.json`) object, restricted to
the fields stage 4 reads. -/
structure SuppData where
  photoTakenTime : Option TimeDict
  creationTime : Option TimeDict
  geoData : Option GeoDict
deriving DecidableEq, Repr

/-- `parse_google_photos_timestamp` (`4_restore_metadata.py`, lines 85-97):
accepts only strings containing `UTC`, strips that marker, parses
`%Y/%m/%d %H:%M:%S`, and converts UTC to JST by adding nine hours; parse
failures are caught and become `none`. -/
def parse_google_photos_timestamp (s : String) : Option DateTimeRec :=
  if hasSub s.data "UTC".data then
    match strptimeSlash (stripChars (removeUTC s.data)) with
    | some dt => some (addSecondsDT dt (9 * 3600))
    | none => none
  else none

/-- `extract_datetime_from_supplemental_metadata` (lines 100-116):
`photoTakenTime.formatted` is preferred; when the `photoTakenTime` key or
its `formatted` key is absent, `creationTime.formatted` is the fallback.
When a `formatted` value is present its parse result is returned directly,
even if the parse yields nothing. -/
def extract_datetime_from_supplemental_metadata (sd : SuppData) :
    Option DateTimeRec :=
  let fromCreation : Option DateTimeRec :=
    match sd.creationTime with
    | some t =>
      match t.formatted with
      | some f => parse_google_photos_timestamp f
      | none => none
    | none => none
  match sd.photoTakenTime with
  | some t =>
    match t.formatted with
    | some f => parse_google_photos_timestamp f
    | none => fromCreation
  | none => fromCreation

/-- `extract_gps_from_supplemental_metadata` (lines 119-135): latitude and
longitude default to `0.0`; an all-zero position is treated as absent. -/
def extract_gps_from_supplemental_metadata (sd : SuppData) : Option GPSData :=
  match sd.geoData with
  | none => none
  | some geo =>
    let latitude := geo.latitude.getD 0
    let longitude := geo.longitude.getD 0
    if latitude = 0 ∧ longitude = 0 then none
    else some ⟨latitude, longitude, geo.altitude⟩

/-- The `gps_data` dict of a `metadata.json` record (serialized from
`GPSData` by `asdict`). -/
structure GpsDict where
  latitude : Option ℚ
  longitude : Option ℚ
  altitude : Option ℚ
deriving DecidableEq, Repr

/-- `compare_datetime` (lines 138-155): the stored value is an ISO string;
`T` is replaced by a space, the string is parsed, and the two timestamps
match when they differ by at most sixty seconds.  Parse failures are
caught and count as a mismatch. -/
def compare_datetime (existing_dt : Option String) (new_dt : Option DateTimeRec) :
    Bool :=
  match existing_dt, new_dt with
  | none, none => true
  | none, some _ => false
  | some _, none => false
  | some e, some n =>
    match fromIsoModel (replaceTwithSpace e) with
    | none => false
    | some ed => decide (|toSeconds ed - toSeconds n| ≤ 60)

/-- `compare_gps` (lines 158-178): latitude and longitude each default to
`0.0`, and the readings match when both coordinate differences are at most
one ten-thousandth of a degree. -/
def compare_gps (existing_gps : Option GpsDict) (new_gps : Option GPSData) :
    Bool :=
  match existing_gps, new_gps with
  | none, none => true
  | none, some _ => false
  | some _, none => false
  | some e, some g =>
    let existing_lat := e.latitude.getD 0
    let existing_lon := e.longitude.getD 0
    decide (|existing_lat - g.latitude| ≤ 1 / 10000 ∧
            |existing_lon - g.longitude| ≤ 1 / 10000)

/-- `RestoreResult` (lines 21-37). -/
structure RestoreResult where
  filename : String
  success : Bool
  restored_datetime : Bool := false
  restored_gps : Bool := false
  conflicts : List String := []
  missing_info : List String := []
  error_message : Option String := none
deriving DecidableEq, Repr

/-- The arguments of a performed `write_exif_data` call: the datetime and
GPS values handed to the external tool. -/
abbrev WriteArg := Option DateTimeRec × Option GPSData

/-- The record stored in `metadata.json` for one image, restricted to the
fields stage 4 reads with `.get`. -/
structure ImageMeta where
  exif_datetime : Option String
  gps_data : Option GpsDict
deriving DecidableEq, Repr

/-- Python truthiness of the stored `exif_datetime` value (a string). -/
def existingDtTruthy : Option String → Bool
  | some s => !s.isEmpty
  | none => false

/-- Python truthiness of the stored `gps_data` value (a dict: truthy when
it has at least one key). -/
def gpsDictTruthy : Option GpsDict → Bool
  | some d => d.latitude.isSome || d.longitude.isSome || d.altitude.isSome
  | none => false

def conflictDtMsg : String := "conflict: datetime differs between EXIF and sidecar"
def conflictGpsMsg : String := "conflict: GPS differs between EXIF and sidecar"
def missingDtMsg : String := "missing: no datetime information"
def missingGpsMsg : String := "missing: no GPS information"

/-- The datetime half of `restore_metadata_for_image` (lines 266-286):
returns the value to restore, the conflict messages, the missing-info
messages, and the `restored_datetime` flag. -/
def dtSection (suppData : Option SuppData) (existingDt : Option String) :
    Option DateTimeRec × List String × List String × Bool :=
  match suppData with
  | some sd =>
    match extract_datetime_from_supplemental_metadata sd with
    | some sdt =>
      if existingDtTruthy existingDt && !compare_datetime existingDt (some sdt) then
        (none, [conflictDtMsg], [], false)
      else (some sdt, [], [], true)
    | none =>
      if !existingDtTruthy existingDt then (none, [], [missingDtMsg], false)
      else (none, [], [], false)
  | none =>
    if !existingDtTruthy existingDt then (none, [], [missingDtMsg], false)
    else (none, [], [], false)

/-- The GPS half of `restore_metadata_for_image` (lines 288-304). -/
def gpsSection (suppData : Option SuppData) (existingGps : Option GpsDict) :
    Option GPSData × List String × List String × Bool :=
  match suppData with
  | some sd =>
    match extract_gps_from_supplemental_metadata sd with
    | some sg =>
      if gpsDictTruthy existingGps && !compare_gps existingGps (some sg) then
        (none, [conflictGpsMsg], [], false)
      else (some sg, [], [], true)
    | none =>
      if !gpsDictTruthy existingGps then (none, [], [missingGpsMsg], false)
      else (none, [], [], false)
  | none =>
    if !gpsDictTruthy existingGps then (none, [], [missingGpsMsg], false)
    else (none, [], [], false)

/-- `restore_metadata_for_image` (`4_restore_metadata.py`, lines 239-321).
Inputs stand for the external state the code consults: `imageExists` for
the stored file's existence, `locFound` for `metadata_location_info.get("found")`,
and `loadedSupp` for the decoded sidecar (already `none` when loading
failed).  The returned `WriteArg` is the EXIF write performed, if any;
the external tool's success is modelled as true. -/
def restore_metadata_for_image (filename : String) (imageExists : Bool)
    (im : ImageMeta) (locFound : Bool) (loadedSupp : Option SuppData) :
    RestoreResult × Option WriteArg :=
  if imageExists = false then
    ({ filename := filename, success := false,
       error_message := some "image file does not exist" }, none)
  else
    let suppData := if locFound then loadedSupp else none
    let dres := dtSection suppData im.exif_datetime
    let gres := gpsSection suppData im.gps_data
    let datetime_to_restore := dres.1
    let gps_to_restore := gres.1
    let w : Option WriteArg :=
      if datetime_to_restore.isSome || gps_to_restore.isSome then
        some (datetime_to_restore, gps_to_restore)
      else none
    ({ filename := filename, success := true,
       restored_datetime := dres.2.2.2, restored_gps := gres.2.2.2,
       conflicts := dres.2.1 ++ gres.2.1,
       missing_info := dres.2.2.1 ++ gres.2.2.1,
       error_message := none }, w)

/-- The conflict count of `generate_summary_report` (line 376): the number
of results whose conflict list is non-empty; the report lists each such
file with its conflict messages. -/
def filesWithConflicts (results : List RestoreResult) : Nat :=
  results.countP (fun r => !r.conflicts.isEmpty)

end Restore4

namespace Describe5

/-- The per-record original-filename lookup of `5_describe_result.py`
(lines 98-101 in `compare_metadata`, and identically in
`copy_unknown_datetime_files`): `hash_to_pair[hash_value]['source']`,
taken through `os.path.basename`. -/
def originalFilenameRead (pairRecord : PyDict) : Except PyErr String := do
  let source ← getStrItem pairRecord "source"
  pure (pyBasename source)

end Describe5

namespace Restore6

open ExifUtils

/-- `PhotoMetadata` (`utils/exif_utils.py`, lines 25-41), the record type
stored in the stage-6 pickle inputs. -/
structure PhotoMetadata where
  file_name : String
  exif_datetime : Option DateTimeRec := none
  exif_gps : Option GPSData := none
deriving DecidableEq, Repr

/-- The observable effect of one stage-6 `restore_metadata_for_image`
call: the EXIF write performed (if any) and whether the file was moved
into the `no_datetime` quarantine directory. -/
structure Effect where
  written : Option (Option DateTimeRec × Option GPSData)
  moved : Bool
deriving DecidableEq, Repr

/-- `restore_metadata_for_image` (`6_restore_metadata.py`, lines 106-137).
When both datetime and GPS are already present in the stored file's
metadata the function returns at once.  Otherwise each missing field is
taken from `supplemental_data`; that attribute access raises
`AttributeError` when the supplemental record is `None`.  After an
optional EXIF write, the file is moved to quarantine whenever
`datetime_to_restore` is `None`.  Every path past the early return has at
least one field missing, so the supplemental record is dereferenced on
every such path and a `None` supplemental record always raises there. -/
def restore_metadata_for_image (photo : PhotoMetadata)
    (supp : Option PhotoMetadata) : Except PyErr Effect :=
  if photo.exif_datetime.isSome && photo.exif_gps.isSome then
    .ok ⟨none, false⟩
  else
    match supp with
    | none => .error .attributeError
    | some s =>
      let datetime_to_restore : Option DateTimeRec :=
        if photo.exif_datetime.isNone then s.exif_datetime else none
      let gps_to_restore : Option GPSData :=
        if photo.exif_gps.isNone then s.exif_gps else none
      let written : Option (Option DateTimeRec × Option GPSData) :=
        if datetime_to_restore.isSome || gps_to_restore.isSome then
          some (datetime_to_restore, gps_to_restore)
        else none
      if datetime_to_restore.isNone then .ok ⟨written, true⟩
      else .ok ⟨written, false⟩

/-- The datetime value an effect wrote into the file, if any. -/
def writtenDt (eff : Effect) : Option DateTimeRec :=
  match eff.written with
  | some (d, _) => d
  | none => none

/-- The GPS value an effect wrote into the file, if any. -/
def writtenGps (eff : Effect) : Option GPSData :=
  match eff.written with
  | some (_, g) => g
  | none => none

/-- A re-run of the stage-6 Writer recomputes `restore_metadata_for_image`
from the same pickled metadata files, which the Writer itself never
rewrites; the second run's effect on a record is therefore the same
function of the same persisted inputs. -/
def secondRunEffect (photo : PhotoMetadata) (supp : Option PhotoMetadata) :
    Except PyErr Effect :=
  restore_metadata_for_image photo supp

end Restore6

namespace ExifUtils

theorem exifDatetimeLoop_eq (d : ExifData) :
    ∀ fs, exifDatetimeLoop d fs =
      (match firstUsableValue d fs with
       | none => Except.ok none
       | some v => applyDatetimeParse v) := by
  intro fs
  induction fs with
  | nil => rfl
  | cons f fs ih =>
    rw [exifDatetimeLoop, firstUsableValue, List.findSome?_cons]
    cases hl : lookupTag d f with
    | none =>
      simp only [usableValue, hl]
      exact ih
    | some v =>
      by_cases hv : v = ""
      · subst hv
        simp only [usableValue, hl, if_pos rfl]
        exact ih
      · cases hp : parseDatetimeValue v with
        | unrecognized =>
          simp only [usableValue, hl, if_neg hv, hp]
          exact ih
        | parsed dt =>
          simp [usableValue, hl, hv, hp, applyDatetimeParse]
        | raised =>
          simp [usableValue, hl, hv, hp, applyDatetimeParse]

end ExifUtils

/-- C2 (amended): datetime extraction scans the fixed priority list
`EXIF:DateTime`, `EXIF:DateTimeOriginal`, `EXIF:DateTimeDigitized`,
`EXIF:CreateDate`, `EXIF:ModifyDate`, `File:FileModifyDate`,
`File:FileAccessDate`, `File:FileInodeChangeDate`, and returns the parse
of the first tag that is present, non-empty, and in a recognized shape;
present, non-empty tags whose values match neither recognized shape are
skipped, so the extraction returns no value exactly when no tag is
present, non-empty and recognized (and raises when the first usable value
fails to parse). -/
theorem C2_first_usable_tag (d : ExifUtils.ExifData) :
    ExifUtils.get_exif_datetime d =
      (match ExifUtils.firstUsableValue d ExifUtils.datetimeFields with
       | none => Except.ok none
       | some v => ExifUtils.applyDatetimeParse v) :=
  ExifUtils.exifDatetimeLoop_eq d ExifUtils.datetimeFields

/-- C2 counterexample: the tag `EXIF:DateTime` is present with the
non-empty value `x`, yet extraction returns no value, contradicting the
claim that it returns no value only when no tag in the list is present
and non-empty. -/
theorem C2_counterexample :
    ExifUtils.lookupTag [("EXIF:DateTime", "x")] "EXIF:DateTime" = some "x" ∧
    ("x" : String) ≠ "" ∧
    ExifUtils.get_exif_datetime [("EXIF:DateTime", "x")] = .ok none :=
  ⟨by decide, by decide, by decide⟩

/-- C3 (amended): when the external EXIF tool returns no data at all for a
file, stage 2 does not stop the run: `get_exif_data` returns `None`, and
`process_single_file` produces a normal record for the file with absent
datetime and GPS metadata, so the batch continues with absent metadata
rather than surfacing a fatal error. -/
theorem C3_no_tool_output_is_per_file
    (gpsOf : ExifUtils.ExifData → Option ExifUtils.GPSData)
    (fct : DateTimeRec) (fileName : String) :
    FilterMissing.process_single_file gpsOf (ExifUtils.get_exif_data []) fct fileName =
      .processed ⟨fileName, none, fct, none⟩ := rfl

/-- C3 counterexample: for a file on which the tool returns no data, the
stage-2 per-file step returns a processed record (with empty metadata)
rather than any fatal error, contradicting the claim that the pipeline
stops and surfaces the tool's diagnostic. -/
theorem C3_counterexample :
    FilterMissing.process_single_file (fun _ => none) (ExifUtils.get_exif_data [])
        ⟨2020, 1, 1, 0, 0, 0⟩ "a.jpg" =
      .processed ⟨"a.jpg", none, ⟨2020, 1, 1, 0, 0, 0⟩, none⟩ := rfl

/-- C4: two parsed datetime values are treated as matching exactly when
they differ by at most sixty seconds, and two GPS readings are treated as
matching exactly when the latitude difference and the longitude difference
are each at most one ten-thousandth of a degree; both comparisons are
inclusive at the threshold, so any strictly larger difference conflicts. -/
theorem C4_tolerance_boundaries :
    (∀ (e : String) (ed n : DateTimeRec),
      fromIsoModel (replaceTwithSpace e) = some ed →
      (Restore4.compare_datetime (some e) (some n) = true ↔
        |toSeconds ed - toSeconds n| ≤ 60)) ∧
    (∀ (elat elon : ℚ) (alt : Option ℚ) (g : ExifUtils.GPSData),
      Restore4.compare_gps (some ⟨some elat, some elon, alt⟩) (some g) = true ↔
        (|elat - g.latitude| ≤ 1 / 10000 ∧ |elon - g.longitude| ≤ 1 / 10000)) := by
  constructor
  · intro e ed n h
    simp [Restore4.compare_datetime, h]
  · intro elat elon alt g
    simp [Restore4.compare_gps]

/-- C4 witness: a concrete parsed stored value, compared against a value
sixty seconds away (the boundary counts as matching). -/
theorem C4_tolerance_boundaries_witness :
    fromIsoModel (replaceTwithSpace "2020-01-01T00:00:00") =
        some ⟨2020, 1, 1, 0, 0, 0⟩ ∧
    (Restore4.compare_datetime (some "2020-01-01T00:00:00")
        (some ⟨2020, 1, 1, 0, 1, 0⟩) = true ↔
      |toSeconds ⟨2020, 1, 1, 0, 0, 0⟩ - toSeconds ⟨2020, 1, 1, 0, 1, 0⟩| ≤ 60) :=
  ⟨by decide, C4_tolerance_boundaries.1 "2020-01-01T00:00:00" ⟨2020, 1, 1, 0, 0, 0⟩
    ⟨2020, 1, 1, 0, 1, 0⟩ (by decide)⟩

/-- C5 (amended): when the stored file's value and the sidecar value for a
field (datetime or GPS) disagree beyond the tolerance, the record is
flagged as conflicted, the conflicting field is excluded from the
automatic fill (neither side's value for that field is written), and the
conflict is counted in the summary report; fields of the record that do
not conflict may still be filled. -/
theorem C5_conflicted_field_excluded :
    (∀ (filename : String) (im : Restore4.ImageMeta) (sd : Restore4.SuppData)
       (sdt : DateTimeRec) (e : String),
      im.exif_datetime = some e →
      Restore4.existingDtTruthy (some e) = true →
      Restore4.extract_datetime_from_supplemental_metadata sd = some sdt →
      Restore4.compare_datetime (some e) (some sdt) = false →
      (Restore4.restore_metadata_for_image filename true im true (some sd)).1.conflicts ≠ [] ∧
      (Restore4.restore_metadata_for_image filename true im true (some sd)).1.restored_datetime = false ∧
      (∀ dtw gw,
        (Restore4.restore_metadata_for_image filename true im true (some sd)).2 = some (dtw, gw) →
        dtw = none) ∧
      (∀ results,
        (Restore4.restore_metadata_for_image filename true im true (some sd)).1 ∈ results →
        0 < Restore4.filesWithConflicts results)) ∧
    (∀ (filename : String) (im : Restore4.ImageMeta) (sd : Restore4.SuppData)
       (sg : ExifUtils.GPSData) (gd : Restore4.GpsDict),
      im.gps_data = some gd →
      Restore4.gpsDictTruthy (some gd) = true →
      Restore4.extract_gps_from_supplemental_metadata sd = some sg →
      Restore4.compare_gps (some gd) (some sg) = false →
      (Restore4.restore_metadata_for_image filename true im true (some sd)).1.conflicts ≠ [] ∧
      (Restore4.restore_metadata_for_image filename true im true (some sd)).1.restored_gps = false ∧
      (∀ dtw gw,
        (Restore4.restore_metadata_for_image filename true im true (some sd)).2 = some (dtw, gw) →
        gw = none) ∧
      (∀ results,
        (Restore4.restore_metadata_for_image filename true im true (some sd)).1 ∈ results →
        0 < Restore4.filesWithConflicts results)) := by
  constructor
  · intro filename im sd sdt e him ht hs hc
    have hd : Restore4.dtSection (some sd) im.exif_datetime =
        (none, [Restore4.conflictDtMsg], [], false) := by
      rw [him]
      simp [Restore4.dtSection, hs, ht, hc]
    have key : Restore4.restore_metadata_for_image filename true im true (some sd) =
        ({ filename := filename, success := true,
           restored_datetime := false,
           restored_gps := (Restore4.gpsSection (some sd) im.gps_data).2.2.2,
           conflicts :=
             Restore4.conflictDtMsg :: (Restore4.gpsSection (some sd) im.gps_data).2.1,
           missing_info := (Restore4.gpsSection (some sd) im.gps_data).2.2.1,
           error_message := none },
         if (Restore4.gpsSection (some sd) im.gps_data).1.isSome then
           some (none, (Restore4.gpsSection (some sd) im.gps_data).1)
         else none) := by
      simp [Restore4.restore_metadata_for_image, hd]
    have hconf :
        (!(Restore4.restore_metadata_for_image filename true im true
            (some sd)).1.conflicts.isEmpty) = true := by
      rw [key]
      simp
    refine ⟨?_, ?_, ?_, ?_⟩
    · rw [key]
      simp
    · rw [key]
    · intro dtw gw hw
      rw [key] at hw
      split at hw
      · simp only [Option.some.injEq, Prod.mk.injEq] at hw
        exact hw.1.symm
      · exact absurd hw (by simp)
    · intro results hmem
      have h0 : 0 < results.countP (fun r => !r.conflicts.isEmpty) :=
        List.countP_pos_iff.mpr ⟨_, hmem, hconf⟩
      simpa [Restore4.filesWithConflicts] using h0
  · intro filename im sd sg gd him ht hs hc
    have hg : Restore4.gpsSection (some sd) im.gps_data =
        (none, [Restore4.conflictGpsMsg], [], false) := by
      rw [him]
      simp [Restore4.gpsSection, hs, ht, hc]
    have key : Restore4.restore_metadata_for_image filename true im true (some sd) =
        ({ filename := filename, success := true,
           restored_datetime := (Restore4.dtSection (some sd) im.exif_datetime).2.2.2,
           restored_gps := false,
           conflicts :=
             (Restore4.dtSection (some sd) im.exif_datetime).2.1 ++
               [Restore4.conflictGpsMsg],
           missing_info := (Restore4.dtSection (some sd) im.exif_datetime).2.2.1,
           error_message := none },
         if (Restore4.dtSection (some sd) im.exif_datetime).1.isSome then
           some ((Restore4.dtSection (some sd) im.exif_datetime).1, none)
         else none) := by
      simp [Restore4.restore_metadata_for_image, hg]
    have hconf :
        (!(Restore4.restore_metadata_for_image filename true im true
            (some sd)).1.conflicts.isEmpty) = true := by
      rw [key]
      simp
    refine ⟨?_, ?_, ?_, ?_⟩
    · rw [key]
      simp
    · rw [key]
    · intro dtw gw hw
      rw [key] at hw
      split at hw
      · simp only [Option.some.injEq, Prod.mk.injEq] at hw
        exact hw.2.symm
      · exact absurd hw (by simp)
    · intro results hmem
      have h0 : 0 < results.countP (fun r => !r.conflicts.isEmpty) :=
        List.countP_pos_iff.mpr ⟨_, hmem, hconf⟩
      simpa [Restore4.filesWithConflicts] using h0

/-- C5 counterexample: a record whose stored datetime (09:00 JST) and
sidecar datetime (14:00 JST) conflict is flagged, yet the record is not
excluded from the automatic fill: its sidecar GPS is still written, so it
is false that neither side's value is written for a conflicted record. -/
theorem C5_counterexample :
    Restore4.restore_metadata_for_image "f.jpg" true
        ⟨some "2020-01-01T09:00:00", none⟩ true
        (some ⟨some ⟨some "2020/01/01 5:00:00 UTC"⟩, none,
          some ⟨some 35, some 139, none⟩⟩) =
      ({ filename := "f.jpg", success := true, restored_datetime := false,
         restored_gps := true, conflicts := [Restore4.conflictDtMsg],
         missing_info := [], error_message := none },
       some (none, some ⟨35, 139, none⟩)) := by decide

/-- C5 witness: the amended conflict theorem applied to the concrete
datetime-conflicting record of the counterexample and to a concrete
GPS-conflicting record (stored latitude 35 versus sidecar latitude 36). -/
theorem C5_conflicted_field_excluded_witness :
    ((Restore4.extract_datetime_from_supplemental_metadata
        ⟨some ⟨some "2020/01/01 5:00:00 UTC"⟩, none, some ⟨some 35, some 139, none⟩⟩ =
      some ⟨2020, 1, 1, 14, 0, 0⟩ ∧
     Restore4.compare_datetime (some "2020-01-01T09:00:00")
        (some ⟨2020, 1, 1, 14, 0, 0⟩) = false) ∧
    ((Restore4.restore_metadata_for_image "f.jpg" true
        ⟨some "2020-01-01T09:00:00", none⟩ true
        (some ⟨some ⟨some "2020/01/01 5:00:00 UTC"⟩, none,
          some ⟨some 35, some 139, none⟩⟩)).1.conflicts ≠ [] ∧
     (Restore4.restore_metadata_for_image "f.jpg" true
        ⟨some "2020-01-01T09:00:00", none⟩ true
        (some ⟨some ⟨some "2020/01/01 5:00:00 UTC"⟩, none,
          some ⟨some 35, some 139, none⟩⟩)).1.restored_datetime = false ∧
     (∀ dtw gw,
       (Restore4.restore_metadata_for_image "f.jpg" true
          ⟨some "2020-01-01T09:00:00", none⟩ true
          (some ⟨some ⟨some "2020/01/01 5:00:00 UTC"⟩, none,
            some ⟨some 35, some 139, none⟩⟩)).2 = some (dtw, gw) →
       dtw = none) ∧
     (∀ results,
       (Restore4.restore_metadata_for_image "f.jpg" true
          ⟨some "2020-01-01T09:00:00", none⟩ true
          (some ⟨some ⟨some "2020/01/01 5:00:00 UTC"⟩, none,
            some ⟨some 35, some 139, none⟩⟩)).1 ∈ results →
       0 < Restore4.filesWithConflicts results))) ∧
    ((Restore4.extract_gps_from_supplemental_metadata
        ⟨none, none, some ⟨some 36, some 139, none⟩⟩ = some ⟨36, 139, none⟩ ∧
     Restore4.compare_gps (some ⟨some 35, some 139, none⟩)
        (some ⟨36, 139, none⟩) = false) ∧
    ((Restore4.restore_metadata_for_image "g.jpg" true
        ⟨none, some ⟨some 35, some 139, none⟩⟩ true
        (some ⟨none, none, some ⟨some 36, some 139, none⟩⟩)).1.conflicts ≠ [] ∧
     (Restore4.restore_metadata_for_image "g.jpg" true
        ⟨none, some ⟨some 35, some 139, none⟩⟩ true
        (some ⟨none, none, some ⟨some 36, some 139, none⟩⟩)).1.restored_gps = false ∧
     (∀ dtw gw,
       (Restore4.restore_metadata_for_image "g.jpg" true
          ⟨none, some ⟨some 35, some 139, none⟩⟩ true
          (some ⟨none, none, some ⟨some 36, some 139, none⟩⟩)).2 = some (dtw, gw) →
       gw = none) ∧
     (∀ results,
       (Restore4.restore_metadata_for_image "g.jpg" true
          ⟨none, some ⟨some 35, some 139, none⟩⟩ true
          (some ⟨none, none, some ⟨some 36, some 139, none⟩⟩)).1 ∈ results →
       0 < Restore4.filesWithConflicts results))) :=
  ⟨⟨⟨by decide, by decide⟩,
    C5_conflicted_field_excluded.1 "f.jpg" ⟨some "2020-01-01T09:00:00", none⟩
      ⟨some ⟨some "2020/01/01 5:00:00 UTC"⟩, none, some ⟨some 35, some 139, none⟩⟩
      ⟨2020, 1, 1, 14, 0, 0⟩ "2020-01-01T09:00:00" rfl (by decide) (by decide)
      (by decide)⟩,
   ⟨⟨by decide, by norm_num [Restore4.compare_gps]⟩,
    C5_conflicted_field_excluded.2 "g.jpg" ⟨none, some ⟨some 35, some 139, none⟩⟩
      ⟨none, none, some ⟨some 36, some 139, none⟩⟩
      ⟨36, 139, none⟩ ⟨some 35, some 139, none⟩ rfl (by decide) (by decide)
      (by norm_num [Restore4.compare_gps])⟩⟩

/-- C6 (amended): the stage-6 Writer never writes a field the stored
file's own extracted metadata already has (already-present datetime and
GPS are left out of any EXIF write it performs), but the stage-4 writer
keeps this policy only for conflicting values: when the stored file
already has a field (datetime or GPS) and the sidecar value for that
field agrees within tolerance, stage 4 rewrites the already-present
field with the sidecar value. -/
theorem C6_fill_policy :
    (∀ (p : Restore6.PhotoMetadata) (supp : Option Restore6.PhotoMetadata)
       (eff : Restore6.Effect),
      Restore6.restore_metadata_for_image p supp = .ok eff →
      (p.exif_datetime.isSome = true → Restore6.writtenDt eff = none) ∧
      (p.exif_gps.isSome = true → Restore6.writtenGps eff = none)) ∧
    (∀ (filename e : String) (im : Restore4.ImageMeta) (sd : Restore4.SuppData)
       (sdt : DateTimeRec),
      im.exif_datetime = some e →
      Restore4.existingDtTruthy (some e) = true →
      Restore4.extract_datetime_from_supplemental_metadata sd = some sdt →
      Restore4.compare_datetime (some e) (some sdt) = true →
      ∃ gw, (Restore4.restore_metadata_for_image filename true im true (some sd)).2 =
        some (some sdt, gw)) ∧
    (∀ (filename : String) (im : Restore4.ImageMeta) (sd : Restore4.SuppData)
       (sg : ExifUtils.GPSData) (gd : Restore4.GpsDict),
      im.gps_data = some gd →
      Restore4.gpsDictTruthy (some gd) = true →
      Restore4.extract_gps_from_supplemental_metadata sd = some sg →
      Restore4.compare_gps (some gd) (some sg) = true →
      ∃ dtw, (Restore4.restore_metadata_for_image filename true im true (some sd)).2 =
        some (dtw, some sg)) := by
  constructor
  · rintro ⟨nm, dt, gps⟩ supp eff heq
    cases dt with
    | some d =>
      cases gps with
      | some g =>
        simp [Restore6.restore_metadata_for_image] at heq
        subst heq
        simp [Restore6.writtenDt, Restore6.writtenGps]
      | none =>
        rcases supp with _ | s
        · simp [Restore6.restore_metadata_for_image] at heq
        · cases hsg : s.exif_gps <;>
            simp [Restore6.restore_metadata_for_image, hsg] at heq <;>
            subst heq <;>
            simp [Restore6.writtenDt, Restore6.writtenGps]
    | none =>
      cases gps with
      | some g =>
        rcases supp with _ | s
        · simp [Restore6.restore_metadata_for_image] at heq
        · cases hsd : s.exif_datetime <;>
            simp [Restore6.restore_metadata_for_image, hsd] at heq <;>
            subst heq <;>
            simp [Restore6.writtenDt, Restore6.writtenGps]
      | none => simp
  refine ⟨?_, ?_⟩
  · intro filename e im sd sdt him ht hs hc
    have hd : Restore4.dtSection (some sd) im.exif_datetime =
        (some sdt, [], [], true) := by
      rw [him]
      simp [Restore4.dtSection, hs, ht, hc]
    refine ⟨(Restore4.gpsSection (some sd) im.gps_data).1, ?_⟩
    simp [Restore4.restore_metadata_for_image, hd]
  · intro filename im sd sg gd him ht hs hc
    have hg : Restore4.gpsSection (some sd) im.gps_data =
        (some sg, [], [], true) := by
      rw [him]
      simp [Restore4.gpsSection, hs, ht, hc]
    refine ⟨(Restore4.dtSection (some sd) im.exif_datetime).1, ?_⟩
    simp [Restore4.restore_metadata_for_image, hg]

/-- C6 counterexample: the stored file's metadata already has a datetime
(`2020-01-01T09:00:00`), the sidecar agrees within tolerance, and the
stage-4 writer nevertheless performs an EXIF write of that datetime,
contradicting the claim that an already-present field is never written
again. -/
theorem C6_counterexample :
    ((⟨some "2020-01-01T09:00:00", none⟩ : Restore4.ImageMeta).exif_datetime.isSome = true) ∧
    (Restore4.restore_metadata_for_image "f.jpg" true
        ⟨some "2020-01-01T09:00:00", none⟩ true
        (some ⟨some ⟨some "2020/01/01 0:00:00 UTC"⟩, none, none⟩)).2 =
      some (some ⟨2020, 1, 1, 9, 0, 0⟩, none) :=
  ⟨by decide, by decide⟩

/-- C6 witness: the fill-policy theorem applied to a stage-6 record that
already has both fields (no write at all), to the concrete agreeing
stage-4 datetime record (datetime rewritten), and to a concrete agreeing
stage-4 GPS record (GPS rewritten). -/
theorem C6_fill_policy_witness :
    (Restore6.restore_metadata_for_image
        ⟨"f.jpg", some ⟨2020, 1, 1, 0, 0, 0⟩, some ⟨35, 139, none⟩⟩ none =
      .ok ⟨none, false⟩) ∧
    Restore6.writtenDt ⟨none, false⟩ = none ∧
    (∃ gw, (Restore4.restore_metadata_for_image "f.jpg" true
        ⟨some "2020-01-01T09:00:00", none⟩ true
        (some ⟨some ⟨some "2020/01/01 0:00:00 UTC"⟩, none, none⟩)).2 =
      some (some ⟨2020, 1, 1, 9, 0, 0⟩, gw)) ∧
    (∃ dtw, (Restore4.restore_metadata_for_image "g.jpg" true
        ⟨none, some ⟨some 35, some 139, none⟩⟩ true
        (some ⟨none, none, some ⟨some 35, some 139, none⟩⟩)).2 =
      some (dtw, some ⟨35, 139, none⟩)) :=
  ⟨by decide,
   (C6_fill_policy.1 ⟨"f.jpg", some ⟨2020, 1, 1, 0, 0, 0⟩, some ⟨35, 139, none⟩⟩
      none ⟨none, false⟩ (by decide)).1 (by decide),
   C6_fill_policy.2.1 "f.jpg" "2020-01-01T09:00:00" ⟨some "2020-01-01T09:00:00", none⟩
     ⟨some ⟨some "2020/01/01 0:00:00 UTC"⟩, none, none⟩ ⟨2020, 1, 1, 9, 0, 0⟩
     rfl (by decide) (by decide) (by decide),
   C6_fill_policy.2.2 "g.jpg" ⟨none, some ⟨some 35, some 139, none⟩⟩
     ⟨none, none, some ⟨some 35, some 139, none⟩⟩ ⟨35, 139, none⟩
     ⟨some 35, some 139, none⟩ rfl (by decide) (by decide)
     (by norm_num [Restore4.compare_gps])⟩

/-- C7 code bug: a stored file whose own metadata has a datetime but no
GPS is moved into the `no_datetime` quarantine even though its datetime
was resolved from the embedded EXIF.  The code tests
`datetime_to_restore` (the value about to be written), which is `None`
precisely because the file already has a datetime, instead of testing
whether any datetime was resolved; this contradicts the claim and the
code's own comment that only photos without datetime are quarantined. -/
theorem C7_quarantines_file_with_datetime :
    Restore6.restore_metadata_for_image
        ⟨"f.jpg", some ⟨2020, 1, 1, 0, 0, 0⟩, none⟩
        (some ⟨"f.jpg", none, none⟩) = .ok ⟨none, true⟩ := by decide

/-- C8 (amended): a stage-6 Writer run is a no-op on a record (no EXIF
write and no move) exactly when the persisted metadata for the stored file
already has both datetime and GPS; the Writer decides from the pickled
metadata alone, so a second run skips exactly those records, and re-writes
any record whose pickled metadata was incomplete even if the first run
already filled the file itself. -/
theorem C8_second_run_noop_iff (p : Restore6.PhotoMetadata)
    (supp : Option Restore6.PhotoMetadata) :
    Restore6.secondRunEffect p supp = .ok ⟨none, false⟩ ↔
      (p.exif_datetime.isSome = true ∧ p.exif_gps.isSome = true) := by
  obtain ⟨nm, dt, gps⟩ := p
  cases dt with
  | some d =>
    cases gps <;> rcases supp with _ | s <;>
      simp [Restore6.secondRunEffect, Restore6.restore_metadata_for_image]
  | none =>
    rcases supp with _ | s
    · cases gps <;>
        simp [Restore6.secondRunEffect, Restore6.restore_metadata_for_image]
    · cases gps <;> cases hsd : s.exif_datetime <;>
        simp [Restore6.secondRunEffect, Restore6.restore_metadata_for_image, hsd]

/-- C8 counterexample: this record is complete after the first run (the
first run writes the missing datetime and the file already had GPS), yet
the second run over the same persisted metadata performs the identical
EXIF write again — the Writer never consults the file's existing EXIF
tags, contradicting the claimed detect-and-skip idempotence. -/
theorem C8_counterexample :
    Restore6.secondRunEffect ⟨"f.jpg", none, some ⟨35, 139, none⟩⟩
        (some ⟨"f.jpg", some ⟨2018, 11, 12, 12, 42, 35⟩, none⟩) =
      .ok ⟨some (some ⟨2018, 11, 12, 12, 42, 35⟩, none), false⟩ := by decide

/-- C9 (amended): a source path with no sidecar match is a normal per-file
outcome in stage 3 — recorded as found equal false, with the loop
processing every pair — and a stored file with absent metadata never
raises in stage 6 when a supplemental record exists for it: whatever
supplemental values are present are written, and the file is moved to the
quarantine exactly when the supplemental record also lacks a datetime;
when the supplemental record is itself absent, stage 6 raises instead of
continuing. -/
theorem C9_missing_is_per_file :
    (∀ (fs : FindMetadata.FsModel) (pair : PyDict) (source filename : String),
      getStrItem pair "source" = .ok source →
      getStrItem pair "filename" = .ok filename →
      FindMetadata.find_metadata_files_for_image fs source = [] →
      FindMetadata.stage3ProcessPair fs pair =
        .entry filename ⟨source, none, none, false, false⟩) ∧
    (∀ (fs : FindMetadata.FsModel) (pairs : List PyDict),
      (FindMetadata.stage3Main fs pairs).length = pairs.length) ∧
    (∀ (nm : String) (supp : Restore6.PhotoMetadata),
      Restore6.restore_metadata_for_image ⟨nm, none, none⟩ (some supp) =
        .ok ⟨(if supp.exif_datetime.isSome || supp.exif_gps.isSome then
                some (supp.exif_datetime, supp.exif_gps)
              else none),
             supp.exif_datetime.isNone⟩) := by
  refine ⟨?_, ?_, ?_⟩
  · intro fs pair source filename h1 h2 h3
    simp [FindMetadata.stage3ProcessPair, h1, h2, h3]
  · intro fs pairs
    simp [FindMetadata.stage3Main]
  · intro nm supp
    obtain ⟨snm, sdt, sgps⟩ := supp
    cases sdt <;> cases sgps <;> simp [Restore6.restore_metadata_for_image]

/-- C9 counterexample: a stored file with absent metadata whose
supplemental record is also absent makes stage 6 raise `AttributeError`
(the exception propagates out of the worker when its future is collected),
so the condition is not recorded as a normal per-file outcome and the
batch run does not continue without raising. -/
theorem C9_counterexample :
    Restore6.restore_metadata_for_image ⟨"f.jpg", none, none⟩ none =
      .error .attributeError := by decide

/-- C9 witness: the per-file-outcome theorem applied to a concrete pair
with no sidecar match anywhere in the filesystem, and to a concrete
metadata-absent record with a supplemental record carrying only GPS. -/
theorem C9_missing_is_per_file_witness :
    (getStrItem [("source", PyVal.str "album/a.jpg"),
        ("filename", PyVal.str "h.jpg")] "source" = .ok "album/a.jpg") ∧
    (FindMetadata.find_metadata_files_for_image
        ⟨fun _ => false, fun _ => false, fun _ => []⟩ "album/a.jpg" = []) ∧
    (FindMetadata.stage3ProcessPair ⟨fun _ => false, fun _ => false, fun _ => []⟩
        [("source", PyVal.str "album/a.jpg"), ("filename", PyVal.str "h.jpg")] =
      .entry "h.jpg" ⟨"album/a.jpg", none, none, false, false⟩) ∧
    (Restore6.restore_metadata_for_image ⟨"x.jpg", none, none⟩
        (some ⟨"x.jpg", none, some ⟨35, 139, none⟩⟩) =
      .ok ⟨some (none, some ⟨35, 139, none⟩), true⟩) :=
  ⟨by decide, by decide,
   C9_missing_is_per_file.1 ⟨fun _ => false, fun _ => false, fun _ => []⟩
     [("source", PyVal.str "album/a.jpg"), ("filename", PyVal.str "h.jpg")]
     "album/a.jpg" "h.jpg" (by decide) (by decide) (by decide),
   C9_missing_is_per_file.2.2 "x.jpg" ⟨"x.jpg", none, some ⟨35, 139, none⟩⟩⟩

namespace CopyFiles

theorem map_hash_addSource (h p : String) (t : List Entry) :
    (addSource h p t).map Entry.hash = t.map Entry.hash := by
  induction t with
  | nil => rfl
  | cons e es ih =>
    by_cases he : hashIs h e
    · simp [addSource, he]
    · simp [addSource, he, ih]

theorem countH_eq_map (t : List Entry) (h : String) :
    countH t h = (t.map Entry.hash).countP (fun s => s == h) := by
  rw [List.countP_map]
  rfl

theorem countH_addSource (h p h2 : String) (t : List Entry) :
    countH (addSource h p t) h2 = countH t h2 := by
  rw [countH_eq_map, countH_eq_map, map_hash_addSource]

theorem hasHash_iff (h : String) (t : List Entry) :
    hasHash h t = true ↔ 0 < countH t h := by
  simp [hasHash, countH, List.any_eq_true, List.countP_pos_iff]

theorem filter_eq_nil_of_countH (t : List Entry) (h : String)
    (h0 : countH t h = 0) : t.filter (hashIs h) = [] := by
  rw [countH, List.countP_eq_zero] at h0
  simpa [List.filter_eq_nil_iff] using h0

theorem sourcesOf_addSource_ne (h p h2 : String) (t : List Entry) (hne : h ≠ h2) :
    sourcesOf (addSource h p t) h2 = sourcesOf t h2 := by
  induction t with
  | nil => rfl
  | cons e es ih =>
    by_cases he : hashIs h e
    · have he' : e.hash = h := by simpa [hashIs] using he
      simp [addSource, he, sourcesOf, List.filter_cons, hashIs, he', hne]
    · by_cases h2e : hashIs h2 e
      · simpa [addSource, he, sourcesOf, List.filter_cons, h2e] using ih
      · simpa [addSource, he, sourcesOf, List.filter_cons, h2e] using ih

theorem sourcesOf_addSource_self (h p : String) (t : List Entry)
    (hone : countH t h = 1) :
    sourcesOf (addSource h p t) h = sourcesOf t h ++ [p] := by
  induction t with
  | nil => simp [countH] at hone
  | cons e es ih =>
    by_cases he : hashIs h e
    · have he' : e.hash = h := by simpa [hashIs] using he
      have hes : countH es h = 0 := by
        simpa [countH, List.countP_cons, he] using hone
      have hfil : es.filter (hashIs h) = [] := filter_eq_nil_of_countH es h hes
      simp [addSource, he, sourcesOf, List.filter_cons, hfil, hashIs, he']
    · have hone' : countH es h = 1 := by
        simpa [countH, List.countP_cons, he] using hone
      simpa [addSource, he, sourcesOf, List.filter_cons] using ih hone'

theorem sourcesOf_append_single (t : List Entry) (e : Entry) (h : String) :
    sourcesOf (t ++ [e]) h =
      sourcesOf t h ++ (if hashIs h e then e.sources else []) := by
  by_cases he : hashIs h e <;>
    simp [sourcesOf, List.filter_append, List.filter_cons, he]

theorem sources_eq_of_mem (t : List Entry) (h : String) (e : Entry)
    (hone : countH t h = 1) (hmem : e ∈ t) (hh : e.hash = h) :
    e.sources = sourcesOf t h := by
  induction t with
  | nil => cases hmem
  | cons a as ih =>
    rcases List.mem_cons.mp hmem with rfl | hmem'
    · have ha : hashIs h e = true := by simp [hashIs, hh]
      have hzero : countH as h = 0 := by
        simpa [countH, List.countP_cons, ha] using hone
      have hfil := filter_eq_nil_of_countH as h hzero
      simp [sourcesOf, List.filter_cons, ha, hfil]
    · by_cases ha : hashIs h a
      · exfalso
        have hzero : countH as h = 0 := by
          simpa [countH, List.countP_cons, ha] using hone
        have hne := List.countP_eq_zero.mp hzero e hmem'
        simp [hashIs, hh] at hne
      · have hone' : countH as h = 1 := by
          simpa [countH, List.countP_cons, ha] using hone
        simpa [sourcesOf, List.filter_cons, ha] using ih hone' hmem'

theorem Inv_step (hashFn : List Nat → String) (outputDir : String)
    {processed : List FileInput} {st : IngestState} (f : FileInput)
    (hInv : Inv hashFn processed st) :
    Inv hashFn (processed ++ [f]) (process_single_file hashFn outputDir st f) := by
  obtain ⟨hcount, hsources, hcopies⟩ := hInv
  by_cases hh : hasHash (hashFn f.content) st.table
  · have hstep : process_single_file hashFn outputDir st f =
        { st with table := addSource (hashFn f.content) f.path st.table } := by
      simp [process_single_file, hh]
    rw [hstep]
    refine ⟨?_, ?_, ?_⟩
    · intro h
      show countH (addSource (hashFn f.content) f.path st.table) h = _
      rw [countH_addSource, hcount h, List.any_append]
      by_cases hb : hashFn f.content == h
      · have hEq : hashFn f.content = h := by simpa using hb
        have hpos : 0 < countH st.table h := hEq ▸ (hasHash_iff _ _).mp hh
        cases hA : processed.any (fun g => hashFn g.content == h) with
        | false => rw [hcount h, hA] at hpos; simp at hpos
        | true => exact rfl
      · simp [hb]
    · intro h
      show sourcesOf (addSource (hashFn f.content) f.path st.table) h = _
      by_cases hb : hashFn f.content == h
      · have hEq : hashFn f.content = h := by simpa using hb
        have hone : countH st.table h = 1 := by
          have hpos : 0 < countH st.table h := hEq ▸ (hasHash_iff _ _).mp hh
          cases hA : processed.any (fun g => hashFn g.content == h) with
          | false => rw [hcount h, hA] at hpos; simp at hpos
          | true => rw [hcount h, hA]; exact rfl
        rw [hEq, sourcesOf_addSource_self _ _ _ hone, hsources, List.filter_append]
        simp [hb]
      · have hne2 : hashFn f.content ≠ h := by simpa using hb
        rw [sourcesOf_addSource_ne _ _ _ _ hne2, hsources, List.filter_append]
        simp [hb]
    · show st.copies.map Prod.fst =
        (addSource (hashFn f.content) f.path st.table).map Entry.hash
      rw [map_hash_addSource]
      exact hcopies
  · have hstep : process_single_file hashFn outputDir st f =
        { table := st.table ++ [newEntry outputDir (hashFn f.content) f.ext f.path],
          copies := st.copies ++
            [(hashFn f.content,
              (newEntry outputDir (hashFn f.content) f.ext f.path).destination)] } := by
      simp [process_single_file, hh]
    have h0 : countH st.table (hashFn f.content) = 0 := by
      by_contra hne0
      exact hh ((hasHash_iff _ _).mpr (Nat.pos_of_ne_zero hne0))
    have hA0 : processed.any (fun g => hashFn g.content == hashFn f.content) = false := by
      cases hA : processed.any (fun g => hashFn g.content == hashFn f.content) with
      | false => rfl
      | true => rw [hcount, hA] at h0; simp at h0
    rw [hstep]
    refine ⟨?_, ?_, ?_⟩
    · intro h
      show countH (st.table ++ [newEntry outputDir (hashFn f.content) f.ext f.path]) h = _
      rw [countH, List.countP_append, ← countH, hcount h, List.any_append]
      by_cases hb : hashFn f.content == h
      · have hEq : hashFn f.content = h := by simpa using hb
        rw [← hEq, hA0]
        simp [List.countP_cons, newEntry, hashIs]
      · simp [List.countP_cons, newEntry, hashIs, hb]
    · intro h
      show sourcesOf (st.table ++ [newEntry outputDir (hashFn f.content) f.ext f.path]) h = _
      rw [sourcesOf_append_single, hsources, List.filter_append]
      by_cases hb : hashFn f.content == h
      · simp [newEntry, hashIs, hb]
      · simp [newEntry, hashIs, hb]
    · show (st.copies ++
          [(hashFn f.content,
            (newEntry outputDir (hashFn f.content) f.ext f.path).destination)]).map
            Prod.fst =
        (st.table ++ [newEntry outputDir (hashFn f.content) f.ext f.path]).map Entry.hash
      simp [hcopies, newEntry]

theorem Inv_init (hashFn : List Nat → String) :
    Inv hashFn [] ⟨[], []⟩ :=
  ⟨fun h => by simp [countH], fun h => by simp [sourcesOf], rfl⟩

theorem Inv_run (hashFn : List Nat → String) (outputDir : String) :
    ∀ (files processed : List FileInput) (st : IngestState),
      Inv hashFn processed st →
      Inv hashFn (processed ++ files)
        (files.foldl (process_single_file hashFn outputDir) st) := by
  intro files
  induction files with
  | nil => intro processed st h; simpa using h
  | cons f fs ih =>
    intro processed st h
    have h2 := ih (processed ++ [f]) _ (Inv_step hashFn outputDir f h)
    simpa [List.append_assoc] using h2

end CopyFiles

/-- C1: for every batch of ingested files in which two or more files share
the same byte content, the output store receives exactly one copy for that
content's hash (one copy operation), the pair mapping contains exactly one
entry for that hash, and that entry's sources list contains the original
source path of every file that produced that content. -/
theorem C1_dedup_ingestion (hashFn : List Nat → String) (outputDir : String)
    (files : List CopyFiles.FileInput) (c : List Nat)
    (hdup : 2 ≤ files.countP (fun f => f.content == c)) :
    CopyFiles.countH
        (CopyFiles.copy_images_with_hash hashFn outputDir files).table (hashFn c) = 1 ∧
    (CopyFiles.copy_images_with_hash hashFn outputDir files).copies.countP
        (fun pr => pr.1 == hashFn c) = 1 ∧
    ∀ e ∈ (CopyFiles.copy_images_with_hash hashFn outputDir files).table,
      e.hash = hashFn c → ∀ f ∈ files, f.content = c → f.path ∈ e.sources := by
  have hInv : CopyFiles.Inv hashFn files
      (CopyFiles.copy_images_with_hash hashFn outputDir files) := by
    simpa [CopyFiles.copy_images_with_hash] using
      CopyFiles.Inv_run hashFn outputDir files [] ⟨[], []⟩ (CopyFiles.Inv_init hashFn)
  obtain ⟨hcount, hsources, hcopies⟩ := hInv
  have hany : files.any (fun f => hashFn f.content == hashFn c) = true := by
    have hpos : 0 < files.countP (fun f => f.content == c) := by omega
    obtain ⟨f, hf, hfc⟩ := List.countP_pos_iff.mp hpos
    refine List.any_eq_true.mpr ⟨f, hf, ?_⟩
    have hc : f.content = c := by simpa using hfc
    simp [hc]
  have h1 : CopyFiles.countH
      (CopyFiles.copy_images_with_hash hashFn outputDir files).table (hashFn c) = 1 := by
    rw [hcount, hany]
    exact rfl
  refine ⟨h1, ?_, ?_⟩
  · calc (CopyFiles.copy_images_with_hash hashFn outputDir files).copies.countP
          (fun pr => pr.1 == hashFn c)
        = ((CopyFiles.copy_images_with_hash hashFn outputDir files).copies.map
            Prod.fst).countP (fun s => s == hashFn c) := by
          rw [List.countP_map]; rfl
      _ = ((CopyFiles.copy_images_with_hash hashFn outputDir files).table.map
            CopyFiles.Entry.hash).countP (fun s => s == hashFn c) := by rw [hcopies]
      _ = CopyFiles.countH
            (CopyFiles.copy_images_with_hash hashFn outputDir files).table (hashFn c) :=
          (CopyFiles.countH_eq_map _ _).symm
      _ = 1 := h1
  · intro e he hh f hf hfc
    rw [CopyFiles.sources_eq_of_mem _ _ _ h1 he hh, hsources]
    refine List.mem_map.mpr ⟨f, List.mem_filter.mpr ⟨hf, ?_⟩, rfl⟩
    simp [hfc]

/-- C1 witness: two files with identical content under an arbitrary hash
function produce one copy, one pair entry, and both source paths in that
entry's sources list. -/
theorem C1_dedup_ingestion_witness :
    (2 ≤ ([⟨"in/a.jpg", ".jpg", [1]⟩, ⟨"in/b.jpg", ".jpg", [1]⟩] :
        List CopyFiles.FileInput).countP (fun f => f.content == [1])) ∧
    (CopyFiles.countH
        (CopyFiles.copy_images_with_hash (fun _ => "h") "out"
          [⟨"in/a.jpg", ".jpg", [1]⟩, ⟨"in/b.jpg", ".jpg", [1]⟩]).table "h" = 1 ∧
    (CopyFiles.copy_images_with_hash (fun _ => "h") "out"
        [⟨"in/a.jpg", ".jpg", [1]⟩, ⟨"in/b.jpg", ".jpg", [1]⟩]).copies.countP
        (fun pr => pr.1 == "h") = 1 ∧
    ∀ e ∈ (CopyFiles.copy_images_with_hash (fun _ => "h") "out"
        [⟨"in/a.jpg", ".jpg", [1]⟩, ⟨"in/b.jpg", ".jpg", [1]⟩]).table,
      e.hash = "h" →
      ∀ f ∈ ([⟨"in/a.jpg", ".jpg", [1]⟩, ⟨"in/b.jpg", ".jpg", [1]⟩] :
          List CopyFiles.FileInput),
        f.content = [1] → f.path ∈ e.sources) :=
  ⟨by decide,
   C1_dedup_ingestion (fun _ => "h") "out"
     [⟨"in/a.jpg", ".jpg", [1]⟩, ⟨"in/b.jpg", ".jpg", [1]⟩] [1] (by decide)⟩

/-- C10: every record the ingestion stage writes into the pair mapping has
exactly the keys sources, destination, filename and hash, and no key named
source; consequently stage 2's `load_pair_mapping` raises an uncaught
`KeyError` on source for any non-empty pair mapping, stage 3's per-record
read of the source key fails for every record (caught and logged, so no
location entry is produced), and stage 5's per-record read of the source
key raises for every record. -/
theorem C10_source_key_missing (hashFn : List Nat → String) (outputDir : String)
    (files : List CopyFiles.FileInput) :
    (∀ d ∈ (CopyFiles.copy_images_with_hash hashFn outputDir files).table.map
        CopyFiles.entryToDict,
      keysOf d = ["sources", "destination", "filename", "hash"] ∧
      getItem d "source" = .error (.keyError "source")) ∧
    ((CopyFiles.copy_images_with_hash hashFn outputDir files).table.map
        CopyFiles.entryToDict ≠ [] →
      FilterMissing.load_pair_mapping
        ((CopyFiles.copy_images_with_hash hashFn outputDir files).table.map
          CopyFiles.entryToDict) = .error (.keyError "source")) ∧
    (∀ d ∈ (CopyFiles.copy_images_with_hash hashFn outputDir files).table.map
        CopyFiles.entryToDict,
      ∀ fs, FindMetadata.stage3ProcessPair fs d = .errorLogged) ∧
    (∀ d ∈ (CopyFiles.copy_images_with_hash hashFn outputDir files).table.map
        CopyFiles.entryToDict,
      Describe5.originalFilenameRead d = .error (.keyError "source")) := by
  refine ⟨?_, ?_, ?_, ?_⟩
  · intro d hd
    obtain ⟨e, he, rfl⟩ := List.mem_map.mp hd
    exact ⟨rfl, rfl⟩
  · intro hne
    rcases hl : (CopyFiles.copy_images_with_hash hashFn outputDir files).table.map
        CopyFiles.entryToDict with _ | ⟨d, rest⟩
    · exact absurd hl hne
    · have hd : d ∈ (CopyFiles.copy_images_with_hash hashFn outputDir files).table.map
          CopyFiles.entryToDict := by
        rw [hl]; exact List.mem_cons_self d rest
      obtain ⟨e, he, heq⟩ := List.mem_map.mp hd
      rw [← heq]
      exact rfl
  · intro d hd fs
    obtain ⟨e, he, rfl⟩ := List.mem_map.mp hd
    rfl
  · intro d hd
    obtain ⟨e, he, rfl⟩ := List.mem_map.mp hd
    rfl

/-- C10 witness: the missing-source-key theorem applied to a concrete
one-file ingestion run. -/
theorem C10_source_key_missing_witness :
    (CopyFiles.entryToDict ⟨["in/a.jpg"], "out/h.jpg", "h.jpg", "h"⟩ ∈
      (CopyFiles.copy_images_with_hash (fun _ => "h") "out"
        [⟨"in/a.jpg", ".jpg", [1]⟩]).table.map CopyFiles.entryToDict) ∧
    (keysOf (CopyFiles.entryToDict ⟨["in/a.jpg"], "out/h.jpg", "h.jpg", "h"⟩) =
      ["sources", "destination", "filename", "hash"] ∧
     getItem (CopyFiles.entryToDict ⟨["in/a.jpg"], "out/h.jpg", "h.jpg", "h"⟩)
       "source" = .error (.keyError "source")) ∧
    (FilterMissing.load_pair_mapping
      ((CopyFiles.copy_images_with_hash (fun _ => "h") "out"
        [⟨"in/a.jpg", ".jpg", [1]⟩]).table.map CopyFiles.entryToDict) =
      .error (.keyError "source")) ∧
    (FindMetadata.stage3ProcessPair ⟨fun _ => false, fun _ => false, fun _ => []⟩
      (CopyFiles.entryToDict ⟨["in/a.jpg"], "out/h.jpg", "h.jpg", "h"⟩) =
      .errorLogged) ∧
    (Describe5.originalFilenameRead
      (CopyFiles.entryToDict ⟨["in/a.jpg"], "out/h.jpg", "h.jpg", "h"⟩) =
      .error (.keyError "source")) :=
  ⟨by decide,
   (C10_source_key_missing (fun _ => "h") "out" [⟨"in/a.jpg", ".jpg", [1]⟩]).1 _
     (by decide),
   (C10_source_key_missing (fun _ => "h") "out" [⟨"in/a.jpg", ".jpg", [1]⟩]).2.1
     (by decide),
   (C10_source_key_missing (fun _ => "h") "out" [⟨"in/a.jpg", ".jpg", [1]⟩]).2.2.1 _
     (by decide) _,
   (C10_source_key_missing (fun _ => "h") "out" [⟨"in/a.jpg", ".jpg", [1]⟩]).2.2.2 _
     (by decide)⟩
